import Mathlib

/-!
Shallow embedding of the Vials detection dashboard's core pipeline
(`src/detection_model.py` and `src/user_page.py`).

Images are modelled as a width, a height and a total pixel function returning
RGB channel triples; the external YOLO detector is an opaque collaborator, so
`predict_and_draw` takes the detector's returned box tensor
(rows `[x1, y1, x2, y2, conf, cls]`, modelled with rational entries standing
for the floats) as an explicit argument.  Clock reads
(`datetime.now().strftime(...)`) are modelled by an explicit `now` string
argument.  Python local variables that may be read before assignment
(`bbox_color` / `dot_color` in the draw loop) are modelled by an `Option`
carried through the loop; reading `none` raises, modelled with `Except`.
-/

namespace Vials

/-- An RGB pixel: (red, green, blue) channel values. -/
abbrev Pixel := Nat × Nat × Nat

/-- A decoded raster image: pixel dimensions plus a total pixel function.
Coordinates are (x, y) with x the column and y the row, as in PIL. -/
structure Img where
  width : Nat
  height : Nat
  pixel : Nat → Nat → Pixel

/-- cv2.cvtColor with COLOR_RGB2BGR (or COLOR_BGR2RGB, the same involution):
swap the first and third channel of every pixel. -/
def swapRB (img : Img) : Img :=
  { width := img.width
    height := img.height
    pixel := fun x y =>
      ((img.pixel x y).2.2, (img.pixel x y).2.1, (img.pixel x y).1) }

/-- PIL colour 'black'. -/
def black : Pixel := (0, 0, 0)

/-- PIL colour 'white'. -/
def white : Pixel := (255, 255, 255)

/-- ImageDraw.rectangle(((x1, y1), (x2, y2)), outline=c): paint the border
pixels of the axis-aligned rectangle with corners (x1, y1) and (x2, y2). -/
def drawRectangle (img : Img) (x1 y1 x2 y2 : Int) (c : Pixel) : Img :=
  { img with pixel := fun x y =>
      if x1 ≤ (x : Int) ∧ (x : Int) ≤ x2 ∧ y1 ≤ (y : Int) ∧ (y : Int) ≤ y2 ∧
          ((x : Int) = x1 ∨ (x : Int) = x2 ∨ (y : Int) = y1 ∨ (y : Int) = y2) then
        c
      else img.pixel x y }

/-- ImageDraw.ellipse((x1, y1, x1 + 5, y1 + 5), fill=c): fill the disc
inscribed in that bounding square, i.e. of radius 5/2 centred at
(x1 + 5/2, y1 + 5/2).  A pixel (x, y) lies in the disc exactly when
(2x - (2 x1 + 5))^2 + (2y - (2 y1 + 5))^2 ≤ 25. -/
def drawDot (img : Img) (x1 y1 : Int) (c : Pixel) : Img :=
  { img with pixel := fun x y =>
      if (2 * (x : Int) - (2 * x1 + 5)) ^ 2 + (2 * (y : Int) - (2 * y1 + 5)) ^ 2 ≤ 25 then
        c
      else img.pixel x y }

/-- One row of `results[0].boxes.data`: bounding box corners, confidence and
class id, all floating-point tensor entries, modelled as rationals. -/
structure DetRow where
  x1 : ℚ
  y1 : ℚ
  x2 : ℚ
  y2 : ℚ
  conf : ℚ
  cls : ℚ

/-- Python `int(...)` on a float/rational: truncation toward zero,
which on a normalised rational is T-division of numerator by denominator. -/
def pyInt (q : ℚ) : Int := Int.tdiv q.num (q.den : Int)

/-- One entry of the `models` dictionary in detection_model.py: the model
file handle plus confidence / IoU thresholds and the class-id-to-label table. -/
structure DetectorConfig where
  model_file : String
  conf_threshold : ℚ
  iou_threshold : ℚ
  classes : List (Int × String)

/-- The `models` dictionary of detection_model.py (lines 76-89): exactly two
configured detectors, keyed "Vials" and "PFS". -/
def models : List (String × DetectorConfig) :=
  [("Vials",
    { model_file := "yolov8l(vials)_3k_80.pt"
      conf_threshold := 0.65
      iou_threshold := 0.45
      classes := [(0, "VIAL")] }),
   ("PFS",
    { model_file := "yolov8l(pfs)_1k_80.pt"
      conf_threshold := 0.70
      iou_threshold := 0.45
      classes := [(0, "PFS")] })]

/-- Comparison used by `sorted(zip(labels, coords), key=lambda x: (x[1][0], x[1][1]))`:
Python tuple order on the raw (x1, y1) coordinates of each box. -/
def detKey (a b : DetRow) : Prop :=
  a.x1 < b.x1 ∨ (a.x1 = b.x1 ∧ a.y1 ≤ b.y1)

instance : DecidableRel detKey := fun a b => by
  unfold detKey; infer_instance

instance : IsTotal DetRow detKey := by
  constructor
  intro a b
  unfold detKey
  rcases lt_trichotomy a.x1 b.x1 with h | h | h
  · exact Or.inl (Or.inl h)
  · rcases le_total a.y1 b.y1 with h2 | h2
    · exact Or.inl (Or.inr ⟨h, h2⟩)
    · exact Or.inr (Or.inr ⟨h.symm, h2⟩)
  · exact Or.inr (Or.inl h)

instance : IsTrans DetRow detKey := by
  constructor
  intro a b c hab hbc
  unfold detKey at *
  rcases hab with h1 | ⟨h1, h1y⟩ <;> rcases hbc with h2 | ⟨h2, h2y⟩
  · exact Or.inl (h1.trans h2)
  · exact Or.inl (h2 ▸ h1)
  · exact Or.inl (h1 ▸ h2)
  · exact Or.inr ⟨h1.trans h2, h1y.trans h2y⟩

/-- The `sorted(...)` call of predict_and_draw line 131.  Python's sorted is a
stable comparison sort; it is modelled by insertion sort, which is stable and
computes the same list for the total preorder `detKey`. -/
def sortDets (rows : List DetRow) : List DetRow :=
  List.insertionSort detKey rows

/-- State of the drawing loop of predict_and_draw: the image being drawn on,
the running "PFS" and "VIAL" counts of `class_counts`, and the current values
of the Python locals `bbox_color` / `dot_color` (`none` before their first
assignment). -/
structure LoopState where
  img : Img
  pfs : Nat
  vial : Nat
  colors : Option (Pixel × Pixel)

/-- One iteration of the loop at predict_and_draw lines 131-152. -/
def drawStep (mi : DetectorConfig) (st : LoopState) (row : DetRow) : Except String LoopState :=
  let x1 := pyInt row.x1
  let y1 := pyInt row.y1
  let x2 := pyInt row.x2
  let y2 := pyInt row.y2
  let class_name := ((mi.classes).lookup (pyInt row.cls)).getD ("Unknown")
  let colors :=
    if class_name = "PFS" then some (black, white)
    else if class_name = "VIAL" then some (white, black)
    else st.colors
  match colors with
  | none =>
    Except.error ("NameError")
  | some (bc, dc) =>
    let img1 := drawRectangle st.img x1 y1 x2 y2 bc
    let img2 := drawDot img1 x1 y1 dc
    Except.ok
      { img := img2
        pfs := if class_name = "PFS" then st.pfs + 1 else st.pfs
        vial := if class_name = "VIAL" then st.vial + 1 else st.vial
        colors := colors }

/-- The full drawing loop over the sorted detections. -/
def drawLoop (mi : DetectorConfig) : List DetRow → LoopState → Except String LoopState
  | [], st => Except.ok st
  | row :: rest, st =>
    match drawStep mi st row with
    | Except.error e => Except.error e
    | Except.ok st2 => drawLoop mi rest st2

/-- The triple returned by predict_and_draw: annotated image, the
`class_counts` dictionary (an ordered association list, as a Python dict),
and the detection timestamp string. -/
structure Outcome where
  image : Img
  class_counts : List (String × Nat)
  detected_at : String

/-- predict_and_draw of detection_model.py (lines 91-155).  The YOLO predict
call is the external detector capability; `results` is the box tensor it
returned (already filtered by the configured thresholds), and `now` is the
string `datetime.now()` would format. -/
def predict_and_draw (image : Img) (mi : DetectorConfig) (results : List DetRow)
    (now : String) : Except String Outcome :=
  let bgrImage := swapRB image
  if results.isEmpty then
    Except.ok { image := bgrImage, class_counts := [], detected_at := now }
  else
    let img_draw := swapRB bgrImage
    match drawLoop mi (sortDets results) { img := img_draw, pfs := 0, vial := 0, colors := none } with
    | Except.error e => Except.error e
    | Except.ok st =>
      Except.ok
        { image := st.img
          class_counts := [("PFS", st.pfs), ("VIAL", st.vial)]
          detected_at := now }

/-- Image.new('RGB', (w, h)): a blank canvas, background colour (0, 0, 0). -/
def imageNew (w h : Nat) : Img :=
  { width := w, height := h, pixel := fun _ _ => (0, 0, 0) }

/-- canvas.paste(img, (ox, oy)): copy img onto the canvas with its top-left
corner at (ox, oy); pixels outside the pasted region keep the canvas value. -/
def paste (canvas : Img) (img : Img) (ox oy : Nat) : Img :=
  { canvas with pixel := fun x y =>
      if ox ≤ x ∧ x < ox + img.width ∧ oy ≤ y ∧ y < oy + img.height then
        img.pixel (x - ox) (y - oy)
      else canvas.pixel x y }

/-- concatenate_images of detection_model.py (lines 157-176). -/
def concatenate_images (image1 image2 : Img) : Img :=
  let total_width := image1.width + image2.width
  let max_height := max image1.height image2.height
  let c0 := imageNew total_width max_height
  let c1 := paste c0 image1 0 0
  paste c1 image2 image1.width 0

/-- A row of the detection_data2 table as built by insert_data
(timestamps are the strftime strings the pipeline passes around). -/
structure DetectionData where
  image_name : String
  model_name : String
  pfs_count : Int
  vial_count : Int
  timestamp : String

/-- insert_data of detection_model.py (lines 49-73): builds the row that is
added and committed.  Python `image_name[:30]` keeps the first 30 characters. -/
def insert_data (image_name model_name : String) (pfs_count vial_count : Int)
    (timestamp : String) : DetectionData :=
  let truncated_image_name : String := ⟨image_name.data.take 30⟩
  { image_name := truncated_image_name
    model_name := model_name
    pfs_count := pfs_count
    vial_count := vial_count
    timestamp := timestamp }

/-- Python `counts.get(k, 0)` on the class_counts dictionary. -/
def getCount (counts : List (String × Nat)) (k : String) : Nat :=
  (counts.lookup k).getD 0

/-- One entry of `results_list` in user_page.py (lines 115-122). -/
structure ResultRow where
  image_name : String
  model_used : String
  pfs_count : Nat
  vial_count : Nat
  timestamp : String
  username : String
deriving DecidableEq

/-- Lines 92-122 of user_page.py: compare the two outcomes' counts, pick the
winning model (ties favour "Vials" via `>=`), zero the loser's count, and
build the result record — whose timestamp is `timestamp_vials` in both
branches.  Returns the chosen final image together with the record. -/
def arbitrate (vialsOutcome pfsOutcome : Outcome) (image_name username : String) :
    Img × ResultRow :=
  let total_vials := getCount vialsOutcome.class_counts ("VIAL")
  let total_pfs := getCount pfsOutcome.class_counts ("PFS")
  if total_vials ≥ total_pfs then
    (vialsOutcome.image,
     { image_name := image_name
       model_used := "Vials"
       pfs_count := 0
       vial_count := total_vials
       timestamp := vialsOutcome.detected_at
       username := username })
  else
    (pfsOutcome.image,
     { image_name := image_name
       model_used := "PFS"
       pfs_count := total_pfs
       vial_count := 0
       timestamp := vialsOutcome.detected_at
       username := username })

/-- `results_df.to_sql('detection', con=db, if_exists='append', index=False)`
(user_page.py line 132): pandas appends every row of the DataFrame in one
call, inside a single transaction; if the sink rejects any row the whole
append raises and the transaction is rolled back, leaving the table
unchanged.  `sink_ok` says which rows the sink accepts; returns the call's
status and the table contents after the call. -/
def to_sql_append (sink_ok : ResultRow → Bool) (table rows : List ResultRow) :
    Except String Unit × List ResultRow :=
  if rows.all sink_ok then (Except.ok (), table ++ rows)
  else (Except.error ("PersistenceError"), table)

/-- The per-batch body of user_detection_page (user_page.py lines 84-134):
the loop appends one arbitration record per image to `results_list`, and
after the loop the whole list is pushed to the database by a single
to_sql append.  Each input is (image name, vials outcome, pfs outcome). -/
def user_detection_page (username : String)
    (inputs : List (String × Outcome × Outcome))
    (sink_ok : ResultRow → Bool) (table : List ResultRow) :
    Except String Unit × List ResultRow :=
  let results_list :=
    inputs.map (fun t => (arbitrate t.2.1 t.2.2 t.1 username).2)
  to_sql_append sink_ok table results_list

/-- Projection: the class_counts of a successful predict_and_draw call. -/
def outcomeCounts : Except String Outcome → Option (List (String × Nat))
  | Except.ok o => some o.class_counts
  | Except.error _ => none

/-- Projection: one pixel of the returned image of a successful call. -/
def outcomePixel (r : Except String Outcome) (x y : Nat) : Option Pixel :=
  match r with
  | Except.ok o => some (o.image.pixel x y)
  | Except.error _ => none

/-- Projection: the timestamp of a successful call. -/
def outcomeTime : Except String Outcome → Option String
  | Except.ok o => some o.detected_at
  | Except.error _ => none

/-- Projection: the error message of a failed call. -/
def errorMsg : Except String Outcome → Option String
  | Except.ok _ => none
  | Except.error e => some e

instance : DecidableEq (Except String Unit) := fun a b =>
  match a, b with
  | Except.ok x, Except.ok y =>
    if h : x = y then isTrue (by rw [h]) else isFalse (fun hc => h (Except.ok.inj hc))
  | Except.error x, Except.error y =>
    if h : x = y then isTrue (by rw [h]) else isFalse (fun hc => h (Except.error.inj hc))
  | Except.ok _, Except.error _ => isFalse (fun hc => Except.noConfusion hc)
  | Except.error _, Except.ok _ => isFalse (fun hc => Except.noConfusion hc)

/-! ### Concrete fixtures used by witnesses and counterexamples -/

/-- A 1 by 1 pure-red test image. -/
def cRedImg : Img := { width := 1, height := 1, pixel := fun _ _ => (255, 0, 0) }

/-- The "Vials" detector configuration (the first `models` entry). -/
def vialsConfig : DetectorConfig :=
  { model_file := "yolov8l(vials)_3k_80.pt"
    conf_threshold := 0.65
    iou_threshold := 0.45
    classes := [(0, "VIAL")] }

/-- A detector outcome with the given counts dictionary and timestamp,
over the red test image. -/
def mkOutcome (counts : List (String × Nat)) (t : String) : Outcome :=
  { image := cRedImg, class_counts := counts, detected_at := t }

/-- A 3-image batch of (image name, vials outcome, pfs outcome) triples. -/
def cBatch : List (String × Outcome × Outcome) :=
  [("img1", mkOutcome [("PFS", 0), ("VIAL", 1)] ("t1"), mkOutcome [] ("u1")),
   ("img2", mkOutcome [("PFS", 0), ("VIAL", 2)] ("t2"), mkOutcome [] ("u2")),
   ("img3", mkOutcome [] ("t3"), mkOutcome [("PFS", 4), ("VIAL", 0)] ("u3"))]

/-- A sink that rejects exactly the record of the second image. -/
def cSink (r : ResultRow) : Bool := !(r.image_name == "img2")

/-- A sink that rejects exactly the record of the third image. -/
def cSink2 (r : ResultRow) : Bool := !(r.image_name == "img3")

/-- A 1 by 1 test image A. -/
def cA : Img := { width := 1, height := 1, pixel := fun _ _ => (1, 2, 3) }

/-- A 1 by 2 test image B. -/
def cB : Img := { width := 1, height := 2, pixel := fun _ _ => (4, 5, 6) }

/-- A vials outcome reporting VIAL = 2. -/
def wOutcomeV : Outcome := mkOutcome [("PFS", 0), ("VIAL", 2)] ("tv")

/-- A pfs outcome reporting PFS = 2. -/
def wOutcomeP : Outcome := mkOutcome [("PFS", 2), ("VIAL", 0)] ("tp")

/-! ### Claims -/

/-- Claim C1: arbitration compares the Vials outcome's "VIAL" count v with
the PFS outcome's "PFS" count p.  When v ≥ p (ties, 0 == 0 included) the
result records model_used = "Vials", vial_count = v and pfs_count = 0; when
p > v it records model_used = "PFS", pfs_count = p and vial_count = 0.  The
winner's raw count passes through unmodified and the loser's count is forced
to zero. -/
theorem arbitrate_selection (ov op : Outcome) (image_name username : String)
    (v p : Nat) (hv : getCount ov.class_counts ("VIAL") = v)
    (hp : getCount op.class_counts ("PFS") = p) :
    (v ≥ p →
      (arbitrate ov op image_name username).2.model_used = "Vials" ∧
      (arbitrate ov op image_name username).2.vial_count = v ∧
      (arbitrate ov op image_name username).2.pfs_count = 0) ∧
    (p > v →
      (arbitrate ov op image_name username).2.model_used = "PFS" ∧
      (arbitrate ov op image_name username).2.pfs_count = p ∧
      (arbitrate ov op image_name username).2.vial_count = 0) := by
  subst hv hp
  constructor
  · intro h
    simp only [arbitrate]
    rw [if_pos h]
    exact ⟨rfl, rfl, rfl⟩
  · intro h
    simp only [arbitrate]
    rw [if_neg (by omega)]
    exact ⟨rfl, rfl, rfl⟩

/-- Witness for C1 at the tie v = p = 2: the tie favours "Vials", the raw
VIAL count 2 passes through and the PFS count is zeroed. -/
theorem arbitrate_selection_witness :
    getCount wOutcomeV.class_counts ("VIAL") = 2 ∧
    getCount wOutcomeP.class_counts ("PFS") = 2 ∧
    (arbitrate wOutcomeV wOutcomeP ("img") ("alice")).2.model_used = "Vials" ∧
    (arbitrate wOutcomeV wOutcomeP ("img") ("alice")).2.vial_count = 2 ∧
    (arbitrate wOutcomeV wOutcomeP ("img") ("alice")).2.pfs_count = 0 := by
  have h := arbitrate_selection wOutcomeV wOutcomeP ("img") ("alice") 2 2
    (by decide) (by decide)
  exact ⟨by decide, by decide, (h.1 (by decide)).1, (h.1 (by decide)).2.1,
    (h.1 (by decide)).2.2⟩

/-- Counterexample to claim C2 as stated: in user_detection_page all result
records of a batch are pushed by one to_sql call after the loop, so when the
sink rejects the record of image 2 of a 3-image batch, the append fails as a
whole and images 1 and 3 are not recorded either — the table stays empty. -/
theorem batch_persistence_counterexample :
    (user_detection_page ("alice") cBatch cSink []).1 =
      Except.error ("PersistenceError") ∧
    (user_detection_page ("alice") cBatch cSink []).2 = [] := by decide

/-- Claim C2 (amended): persistence is a single batch append of the whole
results list performed once after the loop; when that append fails, no image
of the batch (earlier or later) is recorded and the table is unchanged. -/
theorem batch_persistence_all_or_nothing (username : String)
    (inputs : List (String × Outcome × Outcome))
    (sink_ok : ResultRow → Bool) (table : List ResultRow) (e : String)
    (h : (user_detection_page username inputs sink_ok table).1 = Except.error e) :
    (user_detection_page username inputs sink_ok table).2 = table := by
  simp only [user_detection_page, to_sql_append] at h ⊢
  split at h
  · cases h
  · split
    · simp_all
    · rfl

/-- Witness for the amended C2: a sink rejecting image 3's record makes the
batch append fail and leaves the table unchanged. -/
theorem batch_persistence_all_or_nothing_witness :
    (user_detection_page ("bob") cBatch cSink2 []).1 =
      Except.error ("PersistenceError") ∧
    (user_detection_page ("bob") cBatch cSink2 []).2 = [] := by
  refine ⟨by decide, ?_⟩
  exact batch_persistence_all_or_nothing ("bob") cBatch cSink2 []
    ("PersistenceError") (by decide)

/-- Claim C3 (code bug): on zero detections predict_and_draw does return
successfully with an empty count map and the current time, but the returned
image is the RGB2BGR-converted array reinterpreted as RGB — its channels are
swapped, so a pure-red input comes back pure blue instead of untouched
(the non-empty branch converts back to RGB; the empty branch forgets to). -/
theorem predict_no_detections_swaps_channels :
    cRedImg.pixel 0 0 = (255, 0, 0) ∧
    outcomePixel (predict_and_draw cRedImg vialsConfig [] ("t")) 0 0 =
      some (0, 0, 255) ∧
    outcomePixel (predict_and_draw cRedImg vialsConfig [] ("t")) 0 0 ≠
      some (cRedImg.pixel 0 0) ∧
    outcomeCounts (predict_and_draw cRedImg vialsConfig [] ("t")) = some [] ∧
    outcomeTime (predict_and_draw cRedImg vialsConfig [] ("t")) = some ("t") := by
  decide

/-- Claim C4: the timestamp stored in the result record is the Vials
outcome's detection timestamp unconditionally — in both arbitration
branches, so also when the PFS detector wins; the PFS outcome's timestamp is
never used. -/
theorem result_timestamp_is_vials (ov op : Outcome) (image_name username : String) :
    (arbitrate ov op image_name username).2.timestamp = ov.detected_at := by
  simp only [arbitrate]
  split
  · rfl
  · rfl

/-- Claim C5: concatenate_images yields a canvas of width
width(A) + width(B) and height max(height(A), height(B)); the region
[0, width(A)) times [0, height(A)) equals A pixel for pixel and the region
[width(A), width(A)+width(B)) times [0, height(B)) equals B pixel for pixel,
with no scaling of either input. -/
theorem concatenate_images_spec (A B : Img) :
    (concatenate_images A B).width = A.width + B.width ∧
    (concatenate_images A B).height = max A.height B.height ∧
    (∀ x y, x < A.width → y < A.height →
      (concatenate_images A B).pixel x y = A.pixel x y) ∧
    (∀ x y, x < B.width → y < B.height →
      (concatenate_images A B).pixel (A.width + x) y = B.pixel x y) := by
  refine ⟨rfl, rfl, ?_, ?_⟩
  · intro x y hx hy
    simp only [concatenate_images, paste, imageNew]
    rw [if_neg, if_pos]
    · simp
    · exact ⟨Nat.zero_le x, by omega, Nat.zero_le y, by omega⟩
    · intro hcon
      omega
  · intro x y hx hy
    simp only [concatenate_images, paste, imageNew]
    rw [if_pos]
    · congr 1
      omega
    · exact ⟨Nat.le_add_right _ _, by omega, Nat.zero_le y, by omega⟩

/-- Witness for C5 on concrete 1 by 1 and 1 by 2 images. -/
theorem concatenate_images_spec_witness :
    (0 < cA.width ∧ 0 < cA.height ∧ 0 < cB.width ∧ 1 < cB.height) ∧
    (concatenate_images cA cB).pixel 0 0 = cA.pixel 0 0 ∧
    (concatenate_images cA cB).pixel (cA.width + 0) 1 = cB.pixel 0 1 := by
  refine ⟨⟨by decide, by decide, by decide, by decide⟩, ?_, ?_⟩
  · exact (concatenate_images_spec cA cB).2.2.1 0 0 (by decide) (by decide)
  · exact (concatenate_images_spec cA cB).2.2.2 0 1 (by decide) (by decide)

/-- Claim C6 (code bug): a detection whose class id is not in the config's
table is labelled "Unknown" and excluded from the counts (second conjunct:
class id 7 after a mapped VIAL leaves the counts at PFS 0, VIAL 1), but
predict_and_draw does not always return normally: when the first detection
in sorted order is unmapped, neither colour branch has assigned
bbox_color / dot_color yet and the draw call reads an unbound local,
raising instead of returning (first conjunct, class id 1 under the Vials
table {0: VIAL}). -/
theorem unmapped_first_detection_errors :
    errorMsg (predict_and_draw cRedImg vialsConfig [⟨0, 0, 1, 1, 1, 1⟩] ("t")) =
      some ("NameError") ∧
    outcomeCounts (predict_and_draw cRedImg vialsConfig
      [⟨0, 0, 1, 1, 1, 0⟩, ⟨5, 0, 6, 1, 1, 7⟩] ("t")) =
      some [("PFS", 0), ("VIAL", 1)] := by
  decide

/-- Claim C7: before rendering, the detections are sorted by bounding-box
origin, primary key x1 and secondary key y1 (the order the draw loop of
predict_and_draw consumes); the sorted list is ordered under that
lexicographic key and is a permutation of the detector's output, so the draw
order is a deterministic function of the detection set. -/
theorem sortDets_sorted_perm (rows : List DetRow) :
    (sortDets rows).Pairwise
      (fun a b => a.x1 < b.x1 ∨ (a.x1 = b.x1 ∧ a.y1 ≤ b.y1)) ∧
    (sortDets rows).Perm rows := by
  constructor
  · exact List.sorted_insertionSort detKey rows
  · exact List.perm_insertionSort detKey rows

/-- Claim C8: exactly two detector configurations exist, keyed "Vials" and
"PFS", with independently set thresholds: confidence 0.65 and overlap 0.45
for the vial detector, confidence 0.70 and overlap 0.45 for the PFS
detector (and those literals denote 13/20, 9/20 and 7/10). -/
theorem models_config_spec :
    models.map Prod.fst = [("Vials" : String), ("PFS")] ∧
    models.length = 2 ∧
    (models.lookup ("Vials")).map (fun c => (c.conf_threshold, c.iou_threshold)) =
      some (0.65, 0.45) ∧
    (models.lookup ("PFS")).map (fun c => (c.conf_threshold, c.iou_threshold)) =
      some (0.70, 0.45) ∧
    (0.65 : ℚ) = 13 / 20 ∧ (0.45 : ℚ) = 9 / 20 ∧ (0.70 : ℚ) = 7 / 10 := by
  refine ⟨by decide, by decide, rfl, rfl, by norm_num, by norm_num, by norm_num⟩

/-- Claim C9: insert_data stores the first 30 characters of the given image
name (names of at most 30 characters are stored unchanged) and stores
model_name, pfs_count, vial_count and timestamp exactly as passed. -/
theorem insert_data_spec (image_name model_name : String)
    (pfs_count vial_count : Int) (timestamp : String) :
    (insert_data image_name model_name pfs_count vial_count timestamp).image_name.data =
      image_name.data.take 30 ∧
    (image_name.data.length ≤ 30 →
      (insert_data image_name model_name pfs_count vial_count timestamp).image_name =
        image_name) ∧
    (insert_data image_name model_name pfs_count vial_count timestamp).model_name =
      model_name ∧
    (insert_data image_name model_name pfs_count vial_count timestamp).pfs_count =
      pfs_count ∧
    (insert_data image_name model_name pfs_count vial_count timestamp).vial_count =
      vial_count ∧
    (insert_data image_name model_name pfs_count vial_count timestamp).timestamp =
      timestamp := by
  refine ⟨rfl, ?_, rfl, rfl, rfl, rfl⟩
  intro h
  show (⟨image_name.data.take 30⟩ : String) = image_name
  cases image_name with
  | mk data =>
    rw [List.take_of_length_le h]

/-- Witness for C9: a 4-character name is stored unchanged. -/
theorem insert_data_spec_witness :
    ("img1".data.length ≤ 30) ∧
    (insert_data ("img1") ("Vials") 0 3 ("t")).image_name = "img1" := by
  refine ⟨by decide, ?_⟩
  exact (insert_data_spec ("img1") ("Vials") 0 3 ("t")).2.1 (by decide)

/-- One draw-loop step adds at most one to the PFS plus VIAL total. -/
theorem drawStep_counts (mi : DetectorConfig) (st : LoopState) (row : DetRow)
    (st2 : LoopState) (h : drawStep mi st row = Except.ok st2) :
    st2.pfs + st2.vial ≤ st.pfs + st.vial + 1 := by
  simp only [drawStep] at h
  split at h
  · cases h
  · cases h
    split
    · split
      · simp_all
      · dsimp only
        omega
    · split
      · dsimp only
        omega
      · dsimp only
        omega

/-- The draw loop over n detections adds at most n to the PFS plus VIAL
total. -/
theorem drawLoop_counts (mi : DetectorConfig) :
    ∀ (rows : List DetRow) (st st2 : LoopState),
      drawLoop mi rows st = Except.ok st2 →
      st2.pfs + st2.vial ≤ st.pfs + st.vial + rows.length
  | [], st, st2, h => by
    simp only [drawLoop] at h
    cases h
    simp
  | row :: rest, st, st2, h => by
    simp only [drawLoop] at h
    cases hstep : drawStep mi st row with
    | error e =>
      rw [hstep] at h
      cases h
    | ok st1 =>
      rw [hstep] at h
      have h1 := drawStep_counts mi st row st1 hstep
      have h2 := drawLoop_counts mi rest st1 st2 h
      simp only [List.length_cons]
      omega

/-- Claim C10: whenever predict_and_draw returns normally, the count map is
empty when the detector returned no detections (no zero-valued keys), and
otherwise contains exactly the keys "PFS" and "VIAL", whose (non-negative)
values sum to at most the number of detections. -/
theorem predict_counts_invariant (image : Img) (mi : DetectorConfig)
    (results : List DetRow) (now : String) (cs : List (String × Nat))
    (h : outcomeCounts (predict_and_draw image mi results now) = some cs) :
    (results = [] → cs = []) ∧
    (results ≠ [] →
      ∃ p v, cs = [("PFS", p), ("VIAL", v)] ∧ p + v ≤ results.length) := by
  simp only [predict_and_draw] at h
  split at h
  · simp only [outcomeCounts] at h
    cases h
    constructor
    · intro _
      rfl
    · intro hne
      exact absurd (List.isEmpty_iff.mp (by assumption)) hne
  · split at h
    · simp only [outcomeCounts] at h
      cases h
    · simp only [outcomeCounts] at h
      cases h
      constructor
      · intro hnil
        subst hnil
        simp_all
      · intro _
        refine ⟨_, _, rfl, ?_⟩
        have hlen : (sortDets results).length = results.length := by
          simp [sortDets, List.length_insertionSort]
        have hcount := drawLoop_counts mi (sortDets results) _ _ (by assumption)
        simp only [hlen] at hcount
        simpa using hcount

/-- Witness for C10: one mapped VIAL detection yields exactly the keys PFS
and VIAL with total count 1 ≤ 1. -/
theorem predict_counts_invariant_witness :
    ∃ p v, ([("PFS", 0), ("VIAL", 1)] : List (String × Nat)) =
      [("PFS", p), ("VIAL", v)] ∧
      p + v ≤ [(⟨0, 0, 1, 1, 1, 0⟩ : DetRow)].length := by
  have h := predict_counts_invariant cRedImg vialsConfig
    [(⟨0, 0, 1, 1, 1, 0⟩ : DetRow)] ("t") [("PFS", 0), ("VIAL", 1)] (by decide)
  exact h.2 (List.cons_ne_nil _ _)

end Vials
